import Mathlib

/-!
Verification development for the StainEvaluation geometry core
(StainEvaluation.h / StainEvaluation.cpp and the near-duplicate revisions).

Shallow embedding conventions:
  - C++ double is embedded as the rationals (exact arithmetic).
  - A rotation angle stored in degrees is embedded by its cosine/sine pair
    (rcos, rsin); the source only copies rotation angles verbatim between
    transforms, never performs arithmetic on them, so this is a faithful
    representation of the angle as the code consumes it.  A genuine angle
    always satisfies rcos^2 + rsin^2 = 1, which appears as a hypothesis
    where the inverse rotation must cancel the forward rotation.
  - sedeen::Polygon is embedded as a list of vertices.
  - Descriptive metadata fields of ImageProperties (location, color model,
    pixel type, opacity, visibility, nlevels) are not consumed by any of
    the geometry routines and are omitted from the embedding.
-/

namespace StainEval

/-- Embedding of sedeen::PointF: a 2D point with double (here rational)
coordinates. -/
structure PointF where
  x : ℚ
  y : ℚ
deriving DecidableEq

/-- Embedding of sedeen::SizeF: a 2D size with double (here rational)
width and height. -/
structure SizeF where
  w : ℚ
  h : ℚ
deriving DecidableEq

/-- Embedding of sedeen::Size: integer pixel dimensions. -/
structure Size where
  w : ℤ
  h : ℤ
deriving DecidableEq

/-- Embedding of sedeen::SRTTransform: scale-rotate-translate transform with
a center of rotation.  The rotation angle (degrees in the source) is
represented by its cosine/sine pair (rcos, rsin). -/
structure SRTTransform where
  translation : PointF
  scale : SizeF
  rcos : ℚ
  rsin : ℚ
  center : PointF
deriving DecidableEq

/-- Embedding of the ImageProperties struct (src/unnamed/part_000 lines
48-68), restricted to the fields the geometry core reads. -/
structure ImageProperties where
  sedeen_transform : SRTTransform
  tr_pixel_spacing : SizeF
  image_pixel_size : SizeF
  image_size : Size
deriving DecidableEq

/-- Embedding of sedeen::Polygon as its vertex list. -/
abbrev Polygon := List PointF

/-- Embedding of sedeen::RectF: origin (x, y) with extent (w, h). -/
structure RectF where
  x : ℚ
  y : ℚ
  w : ℚ
  h : ℚ
deriving DecidableEq

/-- Embedding of sedeen::TransformDirection. -/
inductive TransformDirection where
  | Forward
  | Inverse
deriving DecidableEq

/-- Modelled from the spec: SRTTransform forward application (SDK code, not
in src/).  Spec section 4.1: rotate about center by rotation, scale by scale
about the same center, then translate by translation. -/
def SRTTransform.apply (t : SRTTransform) (p : PointF) : PointF :=
  let dx := p.x - t.center.x
  let dy := p.y - t.center.y
  let rx := t.rcos * dx - t.rsin * dy
  let ry := t.rsin * dx + t.rcos * dy
  ⟨t.center.x + t.scale.w * rx + t.translation.x,
   t.center.y + t.scale.h * ry + t.translation.y⟩

/-- Modelled from the spec: SRTTransform inverse application (SDK code, not
in src/).  Spec section 4.1: undo the forward steps in reverse order:
untranslate, unscale about the center, rotate back about the center. -/
def SRTTransform.applyInverse (t : SRTTransform) (p : PointF) : PointF :=
  let sx := (p.x - t.translation.x - t.center.x) / t.scale.w
  let sy := (p.y - t.translation.y - t.center.y) / t.scale.h
  ⟨t.center.x + (t.rcos * sx + t.rsin * sy),
   t.center.y + (-t.rsin * sx + t.rcos * sy)⟩

/-- Modelled from the spec: Polygon::transform (SDK code, not in src/)
applies the point operation to every vertex in order, in the requested
direction (spec section 4.1). -/
def Polygon.transform (poly : Polygon) (t : SRTTransform)
    (dir : TransformDirection) : Polygon :=
  match dir with
  | TransformDirection.Forward => poly.map (fun v => t.apply v)
  | TransformDirection.Inverse => poly.map (fun v => t.applyInverse v)

/-- Embedding of StainEvaluation::GetImageCenterFromProperties
(src/StainEvaluation.h lines 586-603).  Each coordinate of the stored
transform center is tested against zero independently; a zero coordinate is
replaced by half the image extent times the pixel size on that axis. -/
def GetImageCenterFromProperties (ip : ImageProperties) : PointF :=
  let tr := ip.sedeen_transform
  let pixelSize := ip.image_pixel_size
  let x := if tr.center.x = 0 then
    pixelSize.w * (ip.image_size.w : ℚ) / 2 else tr.center.x
  let y := if tr.center.y = 0 then
    pixelSize.h * (ip.image_size.h : ℚ) / 2 else tr.center.y
  ⟨x, y⟩

/-- Embedding of StainEvaluation::CalculateCenterDifference
(src/StainEvaluation.h lines 606-618). -/
def CalculateCenterDifference (initial final : ImageProperties) : PointF :=
  let initialCenter := GetImageCenterFromProperties initial
  let finalCenter := GetImageCenterFromProperties final
  let finalPixelSize := final.image_pixel_size
  let xCenterDiff := finalCenter.x - initialCenter.x
  let yCenterDiff := finalCenter.y - initialCenter.y
  ⟨xCenterDiff / finalPixelSize.w, yCenterDiff / finalPixelSize.h⟩

/-- Embedding of the PointF overload of StainEvaluation::ChangeReferenceFrame
(src/StainEvaluation.h lines 1262-1280). -/
def ChangeReferenceFrame (pf : PointF) (initial final : ImageProperties) :
    PointF :=
  let initialPixelSize := initial.image_pixel_size
  let finalPixelSize := final.image_pixel_size
  let centerDiff := CalculateCenterDifference initial final
  let xOutPoint := (initialPixelSize.w * pf.x) / finalPixelSize.w + centerDiff.x
  let yOutPoint := (initialPixelSize.h * pf.y) / finalPixelSize.h + centerDiff.y
  ⟨xOutPoint, yOutPoint⟩

/-- Embedding of the Polygon overload of StainEvaluation::ChangeReferenceFrame
(src/StainEvaluation.h lines 1246-1260): an output vertex vector of the same
size is built, position by position, from the mapped input vertices. -/
def ChangeReferenceFramePolygon (poly : Polygon)
    (initial final : ImageProperties) : Polygon :=
  List.ofFn (fun i : Fin poly.length =>
    ChangeReferenceFrame (poly.get i) initial final)

/-- Embedding of the initial-space transform built inside
StainEvaluation::TransformPolygon (src/StainEvaluation.h lines 679-696):
scale and rotation are copied from the initial transform; the translation is
the initial translation rescaled by the final image pixel size, minus a
(scale - 1) times center correction per axis.  The center stays at the
identity value (0, 0): the source copies identityTransform and never calls
setCenter. -/
def iSpaceTransform (initial final : ImageProperties) : SRTTransform :=
  let initialTransform := initial.sedeen_transform
  let finalImagePixelSize := final.image_pixel_size
  let iBaseTranslation := initialTransform.translation
  let iBaseCenter := initialTransform.center
  let iScale := initialTransform.scale
  { translation :=
      ⟨iBaseTranslation.x / finalImagePixelSize.w -
        (iScale.w - 1) * iBaseCenter.x,
       iBaseTranslation.y / finalImagePixelSize.h -
        (iScale.h - 1) * iBaseCenter.y⟩,
    scale := iScale,
    rcos := initialTransform.rcos,
    rsin := initialTransform.rsin,
    center := ⟨0, 0⟩ }

/-- Embedding of the final-space transform built inside
StainEvaluation::TransformPolygon (src/StainEvaluation.h lines 703-720):
scale and rotation are copied from the final transform; the translation is
the final translation rescaled by the final image pixel size, with no center
correction.  The center stays at the identity value (0, 0). -/
def fSpaceTransform (final : ImageProperties) : SRTTransform :=
  let finalTransform := final.sedeen_transform
  let finalImagePixelSize := final.image_pixel_size
  let fBaseTranslation := finalTransform.translation
  let fScale := finalTransform.scale
  { translation :=
      ⟨fBaseTranslation.x / finalImagePixelSize.w,
       fBaseTranslation.y / finalImagePixelSize.h⟩,
    scale := fScale,
    rcos := finalTransform.rcos,
    rsin := finalTransform.rsin,
    center := ⟨0, 0⟩ }

/-- Embedding of StainEvaluation::TransformPolygon (src/StainEvaluation.h
lines 650-732).  A null polygon is returned empty at once; otherwise the
inverse of the final-space transform is applied to every vertex, followed by
the forward initial-space transform.  The source also reads the two frames
tr_pixel_spacing fields into locals it never uses. -/
def TransformPolygon (poly : Polygon) (initial final : ImageProperties) :
    Polygon :=
  if poly.isEmpty then []
  else
    let fSpace := fSpaceTransform final
    let iSpace := iSpaceTransform initial final
    let tempPolygon := Polygon.transform poly fSpace TransformDirection.Inverse
    Polygon.transform tempPolygon iSpace TransformDirection.Forward

/-- Modelled from the spec: sedeen::xMax of a RectF (SDK code, not in
src/): the right edge coordinate. -/
def RectF.xMax (r : RectF) : ℚ := r.x + r.w

/-- Modelled from the spec: sedeen::yMax of a RectF (SDK code, not in
src/): the far edge coordinate. -/
def RectF.yMax (r : RectF) : ℚ := r.y + r.h

/-- Modelled from the spec: sedeen::isEmpty of a RectF (SDK code, not in
src/).  Spec section 4.4: a rectangle of zero or negative extent is empty. -/
def isEmptyRectF (r : RectF) : Bool := decide (r.w ≤ 0 ∨ r.h ≤ 0)

/-- Embedding of StainEvaluation::RectFToPolygon (src/StainEvaluation.h
lines 1229-1244). -/
def RectFToPolygon (rectf : RectF) : Polygon :=
  if isEmptyRectF rectf then []
  else
    let x_min := rectf.x
    let y_min := rectf.y
    let x_max := rectf.xMax
    let y_max := rectf.yMax
    [⟨x_min, y_max⟩, ⟨x_max, y_max⟩, ⟨x_max, y_min⟩, ⟨x_min, y_min⟩]

/-- Modelled from the spec: sedeen::intersection of two rectangles (SDK
code, not in src/): the axis-aligned intersection, possibly of zero or
negative extent when the inputs do not overlap. -/
def rectIntersection (a b : RectF) : RectF :=
  let x := max a.x b.x
  let y := max a.y b.y
  let x2 := min a.xMax b.xMax
  let y2 := min a.yMax b.yMax
  ⟨x, y, x2 - x, y2 - y⟩

/-- Modelled from the spec: the footprint of a frame (spec glossary and
section 4.4; sedeen::image::rect at level 0 in src/unnamed/part_002 lines
376-377): the rectangle from (0, 0) to the pixel dimensions in the frames
own pixel space. -/
def footprintRect (ip : ImageProperties) : RectF :=
  ⟨0, 0, (ip.image_size.w : ℚ), (ip.image_size.h : ℚ)⟩

/-- Embedding of the footprint intersection computed in
StainEvaluation::buildApplyMaskPipeline (src/unnamed/part_002 lines
376-379): intersect the two containing rectangles of the images. -/
def intersectFootprints (a b : ImageProperties) : RectF :=
  rectIntersection (footprintRect a) (footprintRect b)

/-- Two rectangles overlap when they share a region of positive area. -/
def rectOverlaps (a b : RectF) : Prop :=
  a.x < b.xMax ∧ b.x < a.xMax ∧ a.y < b.yMax ∧ b.y < a.yMax

/-- Embedding of the metadata-dependent part of
StainEvaluation::GetImageProperties (src/StainEvaluation.h lines 913-955).
The SDK metadata queries has/get for each pixel-size tag are embedded as an
Option per axis; the transform, the user-set transform-box spacing and the
integer dimensions arrive as arguments, exactly the values the source copies
into the struct fields. -/
def GetImageProperties (tr : SRTTransform) (trSpacing : SizeF)
    (im_width im_height : ℤ) (metaPixelSizeX metaPixelSizeY : Option ℚ) :
    ImageProperties :=
  let x_pixel_size : ℚ := match metaPixelSizeX with
    | some v => v
    | none => 1
  let y_pixel_size : ℚ := match metaPixelSizeY with
    | some v => v
    | none => 1
  { sedeen_transform := tr,
    tr_pixel_spacing := trSpacing,
    image_size := ⟨im_width, im_height⟩,
    image_pixel_size := ⟨x_pixel_size, y_pixel_size⟩ }

/-- Replace the user-set transform-box pixel spacing of a frame, leaving
every other field unchanged. -/
def setTrSpacing (ip : ImageProperties) (s : SizeF) : ImageProperties :=
  { ip with tr_pixel_spacing := s }

end StainEval

namespace StainEval

instance (a b : RectF) : Decidable (rectOverlaps a b) :=
  decidable_of_iff
    (a.x < b.xMax ∧ b.x < a.xMax ∧ a.y < b.yMax ∧ b.y < a.yMax) Iff.rfl

/-- Claim-side definition of mapPoint, following the words of claim C1 and
spec section 4.3: the point is rescaled per axis by the ratio of the two
intrinsic pixel sizes and shifted by the center difference d, where d is the
difference of the two resolved centers re-expressed in the final frames
pixel units. -/
def ChangeReferenceFrameSpec (p : PointF) (initial final : ImageProperties) :
    PointF :=
  let c0 := GetImageCenterFromProperties initial
  let c1 := GetImageCenterFromProperties final
  let d : PointF := ⟨(c1.x - c0.x) / final.image_pixel_size.w,
                     (c1.y - c0.y) / final.image_pixel_size.h⟩
  ⟨initial.image_pixel_size.w * p.x / final.image_pixel_size.w + d.x,
   initial.image_pixel_size.h * p.y / final.image_pixel_size.h + d.y⟩

/-- First concrete frame used by the C1 witness. -/
def c1FrameA : ImageProperties :=
  { sedeen_transform :=
      { translation := ⟨5, -3⟩, scale := ⟨2, 3⟩, rcos := 1, rsin := 0,
        center := ⟨9, 0⟩ },
    tr_pixel_spacing := ⟨1, 1⟩, image_pixel_size := ⟨2, 1⟩,
    image_size := ⟨100, 80⟩ }

/-- Second concrete frame used by the C1 witness. -/
def c1FrameB : ImageProperties :=
  { sedeen_transform :=
      { translation := ⟨0, 0⟩, scale := ⟨1, 1⟩, rcos := 1, rsin := 0,
        center := ⟨0, 0⟩ },
    tr_pixel_spacing := ⟨1, 1⟩, image_pixel_size := ⟨4, 2⟩,
    image_size := ⟨50, 40⟩ }

/-- Claim C1: for every point and every frame pair with strictly positive
intrinsic pixel sizes, the PointF overload of ChangeReferenceFrame returns
exactly the rescale-and-shift formula of spec section 4.3, with the shift
equal to the difference of resolved centers divided componentwise by the
final intrinsic pixel size. -/
theorem C1_mapPoint_formula (p : PointF) (initial final : ImageProperties)
    (hiw : 0 < initial.image_pixel_size.w)
    (hih : 0 < initial.image_pixel_size.h)
    (hfw : 0 < final.image_pixel_size.w)
    (hfh : 0 < final.image_pixel_size.h) :
    ChangeReferenceFrame p initial final =
      ChangeReferenceFrameSpec p initial final := rfl

/-- Witness for C1: the mapping formula at a concrete point and concrete
frame pair with strictly positive pixel sizes. -/
theorem C1_witness :
    0 < c1FrameA.image_pixel_size.w ∧ 0 < c1FrameA.image_pixel_size.h ∧
    0 < c1FrameB.image_pixel_size.w ∧ 0 < c1FrameB.image_pixel_size.h ∧
    ChangeReferenceFrame ⟨3, 4⟩ c1FrameA c1FrameB =
      ChangeReferenceFrameSpec ⟨3, 4⟩ c1FrameA c1FrameB :=
  ⟨by norm_num [c1FrameA], by norm_num [c1FrameA], by norm_num [c1FrameB],
   by norm_num [c1FrameB],
   C1_mapPoint_formula ⟨3, 4⟩ c1FrameA c1FrameB (by norm_num [c1FrameA])
     (by norm_num [c1FrameA]) (by norm_num [c1FrameB])
     (by norm_num [c1FrameB])⟩

/-- Concrete frame refuting claim C2 as stated: the transform center is
(0, 7), which differs from the point (0, 0), yet the resolver replaces the
zero x coordinate with the physical midpoint on that axis. -/
def c2CounterFrame : ImageProperties :=
  { sedeen_transform :=
      { translation := ⟨0, 0⟩, scale := ⟨1, 1⟩, rcos := 1, rsin := 0,
        center := ⟨0, 7⟩ },
    tr_pixel_spacing := ⟨1, 1⟩, image_pixel_size := ⟨1, 1⟩,
    image_size := ⟨4, 4⟩ }

/-- Counterexample to claim C2 as stated: a frame whose transform center
(0, 7) is not the point (0, 0), for which GetImageCenterFromProperties does
not return the center unchanged (it returns (2, 7)). -/
theorem C2_counterexample :
    c2CounterFrame.sedeen_transform.center ≠ (⟨0, 0⟩ : PointF) ∧
    GetImageCenterFromProperties c2CounterFrame ≠
      c2CounterFrame.sedeen_transform.center := by
  constructor
  · norm_num [c2CounterFrame]
  · norm_num [GetImageCenterFromProperties, c2CounterFrame]

/-- Claim C2 (amended): GetImageCenterFromProperties tests each coordinate
of the stored transform center against zero independently; a coordinate is
returned unchanged exactly when it is nonzero, and a zero coordinate is
replaced by the physical midpoint on that axis.  In particular a frame with
center (12, 7) resolves to (12, 7) regardless of pixel dimensions. -/
theorem C2_center_per_axis (ip : ImageProperties) :
    ((GetImageCenterFromProperties ip).x =
      if ip.sedeen_transform.center.x = 0 then
        ip.image_pixel_size.w * (ip.image_size.w : ℚ) / 2
      else ip.sedeen_transform.center.x) ∧
    ((GetImageCenterFromProperties ip).y =
      if ip.sedeen_transform.center.y = 0 then
        ip.image_pixel_size.h * (ip.image_size.h : ℚ) / 2
      else ip.sedeen_transform.center.y) ∧
    (ip.sedeen_transform.center = ⟨12, 7⟩ →
      GetImageCenterFromProperties ip = ⟨12, 7⟩) := by
  refine ⟨rfl, rfl, fun h => ?_⟩
  simp only [GetImageCenterFromProperties, h]
  norm_num

/-- Concrete frame used by the C2 witness: center (12, 7). -/
def c2WitnessFrame : ImageProperties :=
  { sedeen_transform :=
      { translation := ⟨1, 2⟩, scale := ⟨1, 1⟩, rcos := 1, rsin := 0,
        center := ⟨12, 7⟩ },
    tr_pixel_spacing := ⟨1, 1⟩, image_pixel_size := ⟨3, 5⟩,
    image_size := ⟨77, 99⟩ }

/-- Witness for C2 (amended): a concrete frame with center (12, 7) resolves
to (12, 7). -/
theorem C2_witness :
    GetImageCenterFromProperties c2WitnessFrame = ⟨12, 7⟩ :=
  (C2_center_per_axis c2WitnessFrame).2.2 (by norm_num [c2WitnessFrame])

/-- Claim C6: RectFToPolygon of a non-empty rectangle is the 4-vertex
polygon (xMin, yMax), (xMax, yMax), (xMax, yMin), (xMin, yMin); an empty
rectangle yields the empty polygon; and the concrete rectangle at origin
with width 10 and height 20 yields exactly (0,20), (10,20), (10,0), (0,0). -/
theorem C6_rectToPolygon (r : RectF) :
    (isEmptyRectF r = false →
      RectFToPolygon r =
        [⟨r.x, r.yMax⟩, ⟨r.xMax, r.yMax⟩, ⟨r.xMax, r.y⟩, ⟨r.x, r.y⟩]) ∧
    (isEmptyRectF r = true → RectFToPolygon r = []) ∧
    RectFToPolygon ⟨0, 0, 10, 20⟩ =
      [⟨0, 20⟩, ⟨10, 20⟩, ⟨10, 0⟩, ⟨0, 0⟩] := by
  refine ⟨fun h => ?_, fun h => ?_,
    by norm_num [RectFToPolygon, isEmptyRectF, RectF.xMax, RectF.yMax]⟩
  · simp [RectFToPolygon, h]
  · simp [RectFToPolygon, h]

/-- Witness for C6: the vertex order at a concrete non-empty rectangle and
the empty result at a concrete zero-extent rectangle. -/
theorem C6_witness :
    isEmptyRectF ⟨1, 2, 3, 4⟩ = false ∧ isEmptyRectF ⟨5, 6, 0, 9⟩ = true ∧
    RectFToPolygon ⟨1, 2, 3, 4⟩ =
      [⟨1, 6⟩, ⟨4, 6⟩, ⟨4, 2⟩, ⟨1, 2⟩] ∧
    RectFToPolygon ⟨5, 6, 0, 9⟩ = [] :=
  ⟨by norm_num [isEmptyRectF], by norm_num [isEmptyRectF],
   by rw [(C6_rectToPolygon ⟨1, 2, 3, 4⟩).1 (by norm_num [isEmptyRectF])]
      norm_num [RectF.xMax, RectF.yMax],
   (C6_rectToPolygon ⟨5, 6, 0, 9⟩).2.1 (by norm_num [isEmptyRectF])⟩

/-- Claim C7: the Polygon overload of ChangeReferenceFrame maps every vertex
through the PointF overload, preserving vertex count and order; the empty
polygon maps to the empty polygon, and TransformPolygon of the empty polygon
is the empty polygon. -/
theorem C7_mapPolygon (poly : Polygon) (A B : ImageProperties) :
    ChangeReferenceFramePolygon poly A B =
      poly.map (fun v => ChangeReferenceFrame v A B) ∧
    (ChangeReferenceFramePolygon poly A B).length = poly.length ∧
    ChangeReferenceFramePolygon [] A B = [] ∧
    TransformPolygon [] A B = [] := by
  have hmap : ChangeReferenceFramePolygon poly A B =
      poly.map (fun v => ChangeReferenceFrame v A B) := by
    unfold ChangeReferenceFramePolygon
    conv_rhs => rw [← List.ofFn_get poly]
    rw [List.map_ofFn]
    rfl
  refine ⟨hmap, ?_, ?_, ?_⟩
  · rw [hmap, List.length_map]
  · simp [ChangeReferenceFramePolygon]
  · simp [TransformPolygon]

/-- Claim C10: the user-set transform-box pixel spacing influences no
geometry output: replacing either frames tr_pixel_spacing field by any value
leaves ChangeReferenceFrame on points and polygons, the center difference,
and TransformPolygon unchanged. -/
theorem C10_trSpacing_independent (p : PointF) (poly : Polygon)
    (A B : ImageProperties) (s t : SizeF) :
    ChangeReferenceFrame p (setTrSpacing A s) (setTrSpacing B t) =
      ChangeReferenceFrame p A B ∧
    ChangeReferenceFramePolygon poly (setTrSpacing A s) (setTrSpacing B t) =
      ChangeReferenceFramePolygon poly A B ∧
    CalculateCenterDifference (setTrSpacing A s) (setTrSpacing B t) =
      CalculateCenterDifference A B ∧
    TransformPolygon poly (setTrSpacing A s) (setTrSpacing B t) =
      TransformPolygon poly A B :=
  ⟨rfl, rfl, rfl, rfl⟩

end StainEval

namespace StainEval

/-- Undoing and then redoing an SRT transform is the identity on points when
the rotation pair is a genuine rotation and the scale is nonzero on both
axes. -/
lemma SRTTransform.apply_applyInverse (t : SRTTransform) (p : PointF)
    (hrot : t.rcos ^ 2 + t.rsin ^ 2 = 1)
    (hw : t.scale.w ≠ 0) (hh : t.scale.h ≠ 0) :
    t.apply (t.applyInverse p) = p := by
  obtain ⟨px, py⟩ := p
  obtain ⟨⟨tx, ty⟩, ⟨sw, sh⟩, rc, rs, cx, cy⟩ := t
  simp only [SRTTransform.apply, SRTTransform.applyInverse] at *
  rw [PointF.mk.injEq]
  constructor
  · field_simp
    ring_nf
    linear_combination (px - tx - cx) * sw * sh * hrot
  · field_simp
    ring_nf
    linear_combination (py - ty - cy) * sw * sh * hrot

/-- Applying and then undoing an SRT transform is the identity on points
when the rotation pair is a genuine rotation and the scale is nonzero on
both axes. -/
lemma SRTTransform.applyInverse_apply (t : SRTTransform) (p : PointF)
    (hrot : t.rcos ^ 2 + t.rsin ^ 2 = 1)
    (hw : t.scale.w ≠ 0) (hh : t.scale.h ≠ 0) :
    t.applyInverse (t.apply p) = p := by
  obtain ⟨px, py⟩ := p
  obtain ⟨⟨tx, ty⟩, ⟨sw, sh⟩, rc, rs, cx, cy⟩ := t
  simp only [SRTTransform.apply, SRTTransform.applyInverse] at *
  rw [PointF.mk.injEq]
  constructor
  · field_simp
    ring_nf
    linear_combination (px - cx) * hrot
  · field_simp
    ring_nf
    linear_combination (py - cy) * hrot

/-- The two transforms built inside TransformPolygon coincide when the final
frames intrinsic pixel size equals the initial ones and the per-axis
(scale - 1) times center correction of the initial transform vanishes. -/
lemma iSpace_eq_fSpace (ini fin : ImageProperties)
    (hpw : fin.image_pixel_size = ini.image_pixel_size)
    (h1 : (ini.sedeen_transform.scale.w - 1) * ini.sedeen_transform.center.x = 0)
    (h2 : (ini.sedeen_transform.scale.h - 1) * ini.sedeen_transform.center.y = 0) :
    iSpaceTransform ini fin = fSpaceTransform ini := by
  simp only [iSpaceTransform, fSpaceTransform, hpw, h1, h2, sub_zero]

/-- On a non-empty polygon, TransformPolygon is the vertexwise composite of
the final-space inverse followed by the initial-space forward transform. -/
lemma TransformPolygon_map (poly : Polygon) (initial final : ImageProperties)
    (h : poly ≠ []) :
    TransformPolygon poly initial final =
      poly.map (fun v =>
        (iSpaceTransform initial final).apply
          ((fSpaceTransform final).applyInverse v)) := by
  have hne : poly.isEmpty = false := by
    simp [List.isEmpty_iff, h]
  simp only [TransformPolygon, hne, Bool.false_eq_true, if_false,
    Polygon.transform, List.map_map]
  rfl

/-- Claim-side definition of transformPolygon, following the words of claim
C3 and spec section 4.3: build the initial-space transform by copying the
initial scale and rotation, with translation the initial translation divided
per axis by the final intrinsic pixel size minus (scale - 1) times the
initial center; build the final-space transform by copying the final scale
and rotation, with translation the final translation divided per axis by the
final intrinsic pixel size and no center correction; apply the final-space
transform inversely to every vertex, then the initial-space transform
forward.  The spec leaves the center of the two built transforms
unspecified; they take the identity value (0, 0). -/
def TransformPolygonSpec (poly : Polygon) (initial final : ImageProperties) :
    Polygon :=
  let tInitial : SRTTransform :=
    { translation :=
        ⟨initial.sedeen_transform.translation.x / final.image_pixel_size.w -
          (initial.sedeen_transform.scale.w - 1) *
            initial.sedeen_transform.center.x,
         initial.sedeen_transform.translation.y / final.image_pixel_size.h -
          (initial.sedeen_transform.scale.h - 1) *
            initial.sedeen_transform.center.y⟩,
      scale := initial.sedeen_transform.scale,
      rcos := initial.sedeen_transform.rcos,
      rsin := initial.sedeen_transform.rsin,
      center := ⟨0, 0⟩ }
  let tFinal : SRTTransform :=
    { translation :=
        ⟨final.sedeen_transform.translation.x / final.image_pixel_size.w,
         final.sedeen_transform.translation.y / final.image_pixel_size.h⟩,
      scale := final.sedeen_transform.scale,
      rcos := final.sedeen_transform.rcos,
      rsin := final.sedeen_transform.rsin,
      center := ⟨0, 0⟩ }
  (poly.map (fun v => tFinal.applyInverse v)).map (fun v => tInitial.apply v)

/-- Claim C3: on every non-empty polygon, TransformPolygon builds the two
transforms exactly as the spec describes them and applies the final-space
transform inversely to every vertex followed by the initial-space transform
forward. -/
theorem C3_transformPolygon_spec (poly : Polygon)
    (initial final : ImageProperties) (h : poly ≠ []) :
    TransformPolygon poly initial final =
      TransformPolygonSpec poly initial final := by
  rw [TransformPolygon_map poly initial final h]
  unfold TransformPolygonSpec
  rw [List.map_map]
  rfl

/-- First concrete frame used by the C3 witness. -/
def c3FrameA : ImageProperties :=
  { sedeen_transform :=
      { translation := ⟨10, -4⟩, scale := ⟨2, 5⟩, rcos := 0, rsin := 1,
        center := ⟨3, 8⟩ },
    tr_pixel_spacing := ⟨1, 1⟩, image_pixel_size := ⟨2, 2⟩,
    image_size := ⟨60, 50⟩ }

/-- Second concrete frame used by the C3 witness. -/
def c3FrameB : ImageProperties :=
  { sedeen_transform :=
      { translation := ⟨-6, 2⟩, scale := ⟨4, 3⟩, rcos := 1, rsin := 0,
        center := ⟨5, 5⟩ },
    tr_pixel_spacing := ⟨1, 1⟩, image_pixel_size := ⟨1, 4⟩,
    image_size := ⟨30, 20⟩ }

/-- Witness for C3: the refinement at a concrete non-empty polygon and a
concrete frame pair. -/
theorem C3_witness :
    ([⟨1, 2⟩, ⟨5, -3⟩] : Polygon) ≠ [] ∧
    TransformPolygon [⟨1, 2⟩, ⟨5, -3⟩] c3FrameA c3FrameB =
      TransformPolygonSpec [⟨1, 2⟩, ⟨5, -3⟩] c3FrameA c3FrameB :=
  ⟨by simp,
   C3_transformPolygon_spec [⟨1, 2⟩, ⟨5, -3⟩] c3FrameA c3FrameB (by simp)⟩

/-- Concrete frame refuting claim C4 as stated: scale (2, 2) with transform
center (1, 1) makes the initial-space translation correction nonzero, so
TransformPolygon from the frame to itself shifts the polygon. -/
def c4CounterFrame : ImageProperties :=
  { sedeen_transform :=
      { translation := ⟨0, 0⟩, scale := ⟨2, 2⟩, rcos := 1, rsin := 0,
        center := ⟨1, 1⟩ },
    tr_pixel_spacing := ⟨1, 1⟩, image_pixel_size := ⟨1, 1⟩,
    image_size := ⟨4, 4⟩ }

/-- Counterexample to claim C4 as stated: mapping a polygon from a concrete
frame to itself through TransformPolygon is not a no-op (the vertex (0, 0)
moves to (-1, -1)). -/
theorem C4_counterexample :
    TransformPolygon [⟨0, 0⟩] c4CounterFrame c4CounterFrame ≠
      [(⟨0, 0⟩ : PointF)] := by
  norm_num [TransformPolygon, c4CounterFrame, iSpaceTransform,
    fSpaceTransform, Polygon.transform, SRTTransform.apply,
    SRTTransform.applyInverse]

/-- Claim C4 (amended): mapping from a frame to itself is the identity for
the point mapper whenever the intrinsic pixel sizes are nonzero; for
TransformPolygon it is the identity when, additionally, the per-axis
(scale - 1) times center correction of the frames transform vanishes (for
example, unit scale or zero center); the rotation hypothesis states that the
embedded cosine/sine pair is a genuine rotation. -/
theorem C4_identity (p : PointF) (poly : Polygon) (F : ImageProperties) :
    (F.image_pixel_size.w ≠ 0 → F.image_pixel_size.h ≠ 0 →
      ChangeReferenceFrame p F F = p) ∧
    (F.sedeen_transform.rcos ^ 2 + F.sedeen_transform.rsin ^ 2 = 1 →
     F.sedeen_transform.scale.w ≠ 0 → F.sedeen_transform.scale.h ≠ 0 →
     (F.sedeen_transform.scale.w - 1) * F.sedeen_transform.center.x = 0 →
     (F.sedeen_transform.scale.h - 1) * F.sedeen_transform.center.y = 0 →
      TransformPolygon poly F F = poly) := by
  constructor
  · intro hw hh
    obtain ⟨px, py⟩ := p
    simp only [ChangeReferenceFrame, CalculateCenterDifference, sub_self,
      zero_div, add_zero]
    rw [PointF.mk.injEq]
    exact ⟨mul_div_cancel_left₀ px hw, mul_div_cancel_left₀ py hh⟩
  · intro hrot hsw hsh h1 h2
    rcases eq_or_ne poly [] with rfl | hne
    · simp [TransformPolygon]
    · rw [TransformPolygon_map poly F F hne, iSpace_eq_fSpace F F rfl h1 h2]
      have hfun : (fun v =>
          (fSpaceTransform F).apply ((fSpaceTransform F).applyInverse v)) =
          id := by
        funext v
        exact SRTTransform.apply_applyInverse _ v hrot hsw hsh
      rw [hfun, List.map_id]

/-- Concrete frame used by the C4 witness: unit scale, so the correction
term vanishes and the identity holds. -/
def c4WitnessFrame : ImageProperties :=
  { sedeen_transform :=
      { translation := ⟨4, 6⟩, scale := ⟨1, 1⟩, rcos := 1, rsin := 0,
        center := ⟨5, 5⟩ },
    tr_pixel_spacing := ⟨1, 1⟩, image_pixel_size := ⟨2, 3⟩,
    image_size := ⟨40, 30⟩ }

/-- Witness for C4 (amended): identity of both mappers from a concrete
unit-scale frame to itself. -/
theorem C4_witness :
    ChangeReferenceFrame ⟨3, 4⟩ c4WitnessFrame c4WitnessFrame = ⟨3, 4⟩ ∧
    TransformPolygon [⟨3, 4⟩, ⟨7, 2⟩] c4WitnessFrame c4WitnessFrame =
      [⟨3, 4⟩, ⟨7, 2⟩] :=
  ⟨(C4_identity ⟨3, 4⟩ [] c4WitnessFrame).1 (by norm_num [c4WitnessFrame])
     (by norm_num [c4WitnessFrame]),
   (C4_identity ⟨3, 4⟩ [⟨3, 4⟩, ⟨7, 2⟩] c4WitnessFrame).2
     (by norm_num [c4WitnessFrame]) (by norm_num [c4WitnessFrame])
     (by norm_num [c4WitnessFrame]) (by norm_num [c4WitnessFrame])
     (by norm_num [c4WitnessFrame])⟩

end StainEval

namespace StainEval

/-- Intersecting a rectangle with itself returns it unchanged. -/
lemma rectIntersection_self (r : RectF) : rectIntersection r r = r := by
  obtain ⟨x, y, w, h⟩ := r
  simp [rectIntersection, RectF.xMax, RectF.yMax]

/-- When two rectangles do not overlap, their intersection is empty. -/
lemma not_overlaps_empty (a b : RectF) (h : ¬ rectOverlaps a b) :
    isEmptyRectF (rectIntersection a b) = true := by
  rw [isEmptyRectF, decide_eq_true_eq]
  by_contra hq
  push_neg at hq
  obtain ⟨hw, hh⟩ := hq
  simp only [rectIntersection] at hw hh
  exact h ⟨by linarith [le_max_left a.x b.x, min_le_right a.xMax b.xMax],
    by linarith [le_max_right a.x b.x, min_le_left a.xMax b.xMax],
    by linarith [le_max_left a.y b.y, min_le_right a.yMax b.yMax],
    by linarith [le_max_right a.y b.y, min_le_left a.yMax b.yMax]⟩

/-- Claim C5: the footprint intersection of two frames is the axis-aligned
intersection of their full-extent rectangles: non-overlapping footprints
give an empty rectangle (a normal outcome, not an error), and two
identical-size frames at the same origin give the full footprint itself. -/
theorem C5_intersectFootprints (A B : ImageProperties) :
    (¬ rectOverlaps (footprintRect A) (footprintRect B) →
      isEmptyRectF (intersectFootprints A B) = true) ∧
    (A.image_size = B.image_size →
      intersectFootprints A B = footprintRect A) := by
  constructor
  · intro h
    exact not_overlaps_empty _ _ h
  · intro h
    unfold intersectFootprints
    have hf : footprintRect B = footprintRect A := by
      unfold footprintRect
      rw [h]
    rw [hf]
    exact rectIntersection_self _

/-- Concrete degenerate frame used by the C5 witness: zero pixel
dimensions, so its footprint overlaps nothing. -/
def c5Frame : ImageProperties :=
  { sedeen_transform :=
      { translation := ⟨0, 0⟩, scale := ⟨1, 1⟩, rcos := 1, rsin := 0,
        center := ⟨0, 0⟩ },
    tr_pixel_spacing := ⟨1, 1⟩, image_pixel_size := ⟨1, 1⟩,
    image_size := ⟨0, 0⟩ }

/-- Witness for C5: at a concrete frame pair with non-overlapping (here
degenerate) footprints the intersection is empty, and at a pair of
identical-size frames the intersection is the full footprint. -/
theorem C5_witness :
    ¬ rectOverlaps (footprintRect c5Frame) (footprintRect c5Frame) ∧
    isEmptyRectF (intersectFootprints c5Frame c5Frame) = true ∧
    intersectFootprints c5Frame c5Frame = footprintRect c5Frame :=
  ⟨by norm_num [rectOverlaps, footprintRect, c5Frame, RectF.xMax,
      RectF.yMax],
   (C5_intersectFootprints c5Frame c5Frame).1
     (by norm_num [rectOverlaps, footprintRect, c5Frame, RectF.xMax,
       RectF.yMax]),
   (C5_intersectFootprints c5Frame c5Frame).2 rfl⟩

/-- Concrete frame A refuting claim C8 as stated: nonzero scale (2, 2),
rotation zero (an invertible rotation), transform center (1, 1). -/
def c8FrameA : ImageProperties :=
  { sedeen_transform :=
      { translation := ⟨0, 0⟩, scale := ⟨2, 2⟩, rcos := 1, rsin := 0,
        center := ⟨1, 1⟩ },
    tr_pixel_spacing := ⟨1, 1⟩, image_pixel_size := ⟨1, 1⟩,
    image_size := ⟨4, 4⟩ }

/-- Concrete frame B refuting claim C8 as stated: the identity placement. -/
def c8FrameB : ImageProperties :=
  { sedeen_transform :=
      { translation := ⟨0, 0⟩, scale := ⟨1, 1⟩, rcos := 1, rsin := 0,
        center := ⟨0, 0⟩ },
    tr_pixel_spacing := ⟨1, 1⟩, image_pixel_size := ⟨1, 1⟩,
    image_size := ⟨4, 4⟩ }

/-- Counterexample to claim C8 as stated: both frames have nonzero scale and
a genuine (zero-angle) rotation, yet the exact-arithmetic round trip moves
the vertex (0, 0) to (-1/2, -1/2): the asymmetric center correction makes
the round trip a nonzero translation. -/
theorem C8_counterexample :
    (c8FrameA.sedeen_transform.scale.w ≠ 0 ∧
     c8FrameA.sedeen_transform.scale.h ≠ 0 ∧
     c8FrameB.sedeen_transform.scale.w ≠ 0 ∧
     c8FrameB.sedeen_transform.scale.h ≠ 0 ∧
     c8FrameA.sedeen_transform.rcos ^ 2 +
       c8FrameA.sedeen_transform.rsin ^ 2 = 1 ∧
     c8FrameB.sedeen_transform.rcos ^ 2 +
       c8FrameB.sedeen_transform.rsin ^ 2 = 1) ∧
    TransformPolygon (TransformPolygon [⟨0, 0⟩] c8FrameA c8FrameB)
      c8FrameB c8FrameA ≠ [(⟨0, 0⟩ : PointF)] := by
  constructor
  · norm_num [c8FrameA, c8FrameB]
  · norm_num [TransformPolygon, c8FrameA, c8FrameB, iSpaceTransform,
      fSpaceTransform, Polygon.transform, SRTTransform.apply,
      SRTTransform.applyInverse]

/-- Claim C8 (amended): the round trip through TransformPolygon restores
the polygon exactly when, besides nonzero scales and genuine rotations, the
two frames share an intrinsic pixel size and the per-axis (scale - 1) times
center correction of both transforms vanishes; without those conditions the
round trip is offset by a nonzero translation. -/
theorem C8_roundTrip (poly : Polygon) (A B : ImageProperties)
    (hpw : A.image_pixel_size = B.image_pixel_size)
    (hrotA : A.sedeen_transform.rcos ^ 2 + A.sedeen_transform.rsin ^ 2 = 1)
    (hrotB : B.sedeen_transform.rcos ^ 2 + B.sedeen_transform.rsin ^ 2 = 1)
    (hsAw : A.sedeen_transform.scale.w ≠ 0)
    (hsAh : A.sedeen_transform.scale.h ≠ 0)
    (hsBw : B.sedeen_transform.scale.w ≠ 0)
    (hsBh : B.sedeen_transform.scale.h ≠ 0)
    (hcAx : (A.sedeen_transform.scale.w - 1) * A.sedeen_transform.center.x = 0)
    (hcAy : (A.sedeen_transform.scale.h - 1) * A.sedeen_transform.center.y = 0)
    (hcBx : (B.sedeen_transform.scale.w - 1) * B.sedeen_transform.center.x = 0)
    (hcBy : (B.sedeen_transform.scale.h - 1) * B.sedeen_transform.center.y = 0) :
    TransformPolygon (TransformPolygon poly A B) B A = poly := by
  have hA : iSpaceTransform A B = fSpaceTransform A :=
    iSpace_eq_fSpace A B hpw.symm hcAx hcAy
  have hB : iSpaceTransform B A = fSpaceTransform B :=
    iSpace_eq_fSpace B A hpw hcBx hcBy
  rcases eq_or_ne poly [] with rfl | hne
  · simp [TransformPolygon]
  · have hne2 : TransformPolygon poly A B ≠ [] := by
      rw [TransformPolygon_map poly A B hne]
      simpa using hne
    rw [TransformPolygon_map _ B A hne2, TransformPolygon_map poly A B hne,
      hA, hB, List.map_map]
    have hfun : ((fun v =>
        (fSpaceTransform B).apply ((fSpaceTransform A).applyInverse v)) ∘
        fun v =>
        (fSpaceTransform A).apply ((fSpaceTransform B).applyInverse v)) =
        id := by
      funext v
      simp only [Function.comp_apply, id_eq]
      rw [SRTTransform.applyInverse_apply (fSpaceTransform A) _ hrotA hsAw
        hsAh]
      exact SRTTransform.apply_applyInverse (fSpaceTransform B) v hrotB hsBw
        hsBh
    rw [hfun, List.map_id]

/-- Concrete frame A used by the C8 witness: unit scale with nonzero
center, a genuine non-axis rotation, translation (3, 4). -/
def c8WitnessFrameA : ImageProperties :=
  { sedeen_transform :=
      { translation := ⟨3, 4⟩, scale := ⟨1, 1⟩, rcos := 3/5, rsin := 4/5,
        center := ⟨2, 5⟩ },
    tr_pixel_spacing := ⟨1, 1⟩, image_pixel_size := ⟨2, 2⟩,
    image_size := ⟨40, 30⟩ }

/-- Concrete frame B used by the C8 witness: scale (2, 2) about a zero
center, a genuine rotation, translation (7, 1). -/
def c8WitnessFrameB : ImageProperties :=
  { sedeen_transform :=
      { translation := ⟨7, 1⟩, scale := ⟨2, 2⟩, rcos := -4/5, rsin := 3/5,
        center := ⟨0, 0⟩ },
    tr_pixel_spacing := ⟨1, 1⟩, image_pixel_size := ⟨2, 2⟩,
    image_size := ⟨20, 10⟩ }

/-- Witness for C8 (amended): the round trip restores a concrete two-vertex
polygon for a concrete frame pair satisfying all side conditions. -/
theorem C8_witness :
    c8WitnessFrameA.image_pixel_size = c8WitnessFrameB.image_pixel_size ∧
    TransformPolygon
      (TransformPolygon [⟨1, 1⟩, ⟨0, 3⟩] c8WitnessFrameA c8WitnessFrameB)
      c8WitnessFrameB c8WitnessFrameA = [⟨1, 1⟩, ⟨0, 3⟩] :=
  ⟨rfl,
   C8_roundTrip [⟨1, 1⟩, ⟨0, 3⟩] c8WitnessFrameA c8WitnessFrameB rfl
     (by norm_num [c8WitnessFrameA]) (by norm_num [c8WitnessFrameB])
     (by norm_num [c8WitnessFrameA]) (by norm_num [c8WitnessFrameA])
     (by norm_num [c8WitnessFrameB]) (by norm_num [c8WitnessFrameB])
     (by norm_num [c8WitnessFrameA]) (by norm_num [c8WitnessFrameA])
     (by norm_num [c8WitnessFrameB]) (by norm_num [c8WitnessFrameB])⟩

/-- Claim C9: GetImageProperties defaults a missing pixel-size metadata
entry to exactly 1 on that axis, copies a present entry verbatim, and thus
yields a strictly positive intrinsic pixel size whenever every present
metadata value is positive. -/
theorem C9_pixelSize_default (tr : SRTTransform) (trSpacing : SizeF)
    (iw ih : ℤ) (mX mY : Option ℚ) :
    (mX = none →
      (GetImageProperties tr trSpacing iw ih mX mY).image_pixel_size.w = 1) ∧
    (mY = none →
      (GetImageProperties tr trSpacing iw ih mX mY).image_pixel_size.h = 1) ∧
    (∀ v, mX = some v →
      (GetImageProperties tr trSpacing iw ih mX mY).image_pixel_size.w = v) ∧
    (∀ v, mY = some v →
      (GetImageProperties tr trSpacing iw ih mX mY).image_pixel_size.h = v) ∧
    ((∀ v, mX = some v → 0 < v) → (∀ v, mY = some v → 0 < v) →
      0 < (GetImageProperties tr trSpacing iw ih mX mY).image_pixel_size.w ∧
      0 < (GetImageProperties tr trSpacing iw ih mX mY).image_pixel_size.h) := by
  refine ⟨fun hx => ?_, fun hy => ?_, fun v hv => ?_, fun v hv => ?_,
    fun hx hy => ⟨?_, ?_⟩⟩
  · subst hx
    rfl
  · subst hy
    rfl
  · subst hv
    rfl
  · subst hv
    rfl
  · cases mX with
    | none => norm_num [GetImageProperties]
    | some v => simpa [GetImageProperties] using hx v rfl
  · cases mY with
    | none => norm_num [GetImageProperties]
    | some v => simpa [GetImageProperties] using hy v rfl

/-- Concrete transform used by the C9 witness. -/
def c9Tr : SRTTransform :=
  { translation := ⟨0, 0⟩, scale := ⟨1, 1⟩, rcos := 1, rsin := 0,
    center := ⟨0, 0⟩ }

/-- Witness for C9: with the x metadata entry absent and the y entry
present with value 3, the constructed frame has pixel size (1, 3), which is
strictly positive. -/
theorem C9_witness :
    (GetImageProperties c9Tr ⟨1, 1⟩ 10 20 none (some 3)).image_pixel_size.w
      = 1 ∧
    (GetImageProperties c9Tr ⟨1, 1⟩ 10 20 none (some 3)).image_pixel_size.h
      = 3 ∧
    0 < (GetImageProperties c9Tr ⟨1, 1⟩ 10 20 none
      (some 3)).image_pixel_size.w ∧
    0 < (GetImageProperties c9Tr ⟨1, 1⟩ 10 20 none
      (some 3)).image_pixel_size.h :=
  ⟨(C9_pixelSize_default c9Tr ⟨1, 1⟩ 10 20 none (some 3)).1 rfl,
   (C9_pixelSize_default c9Tr ⟨1, 1⟩ 10 20 none (some 3)).2.2.2.1 3 rfl,
   ((C9_pixelSize_default c9Tr ⟨1, 1⟩ 10 20 none (some 3)).2.2.2.2
     (fun v hv => by cases hv) (fun v hv => by cases hv; norm_num)).1,
   ((C9_pixelSize_default c9Tr ⟨1, 1⟩ 10 20 none (some 3)).2.2.2.2
     (fun v hv => by cases hv) (fun v hv => by cases hv; norm_num)).2⟩

end StainEval
